import Mathlib

/-!
Verification of the star-schema transformation in `dd.py` (MeetingReport).

The script transforms a flat table of meeting/communication events into
dimension tables, a fact table and a role bridge table.  We shallowly embed
the transformation: a DataFrame is a `List` of row structures, a cell that
may be missing (pandas `NaN` / `NaT`) is an `Option`, a pandas `dict`
mapping is an association list, and a raised Python exception is
`Except.error` carrying the exception kind.

Generic building blocks first: `dedupFirst` models
`drop_duplicates(keep=first)` on a column of values, `dedupByKey` models
`drop_duplicates(subset=[k], keep=first)` on whole rows, `withKeys` models
the surrogate-key assignment `range(1, len+1)`, and `alookup` models lookup
in the natural-key to surrogate-key `dict` produced by
`set_index(...)[id].to_dict()` (all such dicts are built from deduplicated
columns, so their keys are distinct and association-list lookup agrees with
Python dict lookup).
-/

namespace MeetingReport

/-- pandas `drop_duplicates` on a list of values: keep the first occurrence
of each value, in order of first appearance.  Stated structurally (filter
after the recursive call) so that it computes by `rfl`; the result is the
subsequence of first occurrences. -/
def dedupFirst [DecidableEq α] : List α → List α
  | [] => []
  | x :: xs => x :: (dedupFirst xs).filter (fun y => decide (y ≠ x))

@[simp] theorem dedupFirst_nil [DecidableEq α] : dedupFirst ([] : List α) = [] := rfl

theorem dedupFirst_cons [DecidableEq α] (x : α) (xs : List α) :
    dedupFirst (x :: xs) = x :: (dedupFirst xs).filter (fun y => decide (y ≠ x)) := rfl

theorem mem_dedupFirst [DecidableEq α] {a : α} {l : List α} :
    a ∈ dedupFirst l ↔ a ∈ l := by
  induction l with
  | nil => simp
  | cons x xs ih =>
    by_cases hax : a = x
    · subst hax; simp [dedupFirst_cons]
    · simp [dedupFirst_cons, List.mem_filter, hax, ih]

theorem nodup_dedupFirst [DecidableEq α] (l : List α) : (dedupFirst l).Nodup := by
  induction l with
  | nil => simp
  | cons x xs ih =>
    rw [dedupFirst_cons]
    refine List.nodup_cons.mpr ⟨?_, ih.filter _⟩
    intro hx
    rcases List.mem_filter.mp hx with ⟨-, hne⟩
    simp at hne

/-- Index of the first occurrence of a value in a list (length of the list
if absent); used to state that surrogate keys follow first-seen order. -/
def firstIdx [DecidableEq α] (a : α) : List α → Nat
  | [] => 0
  | x :: xs => if x = a then 0 else firstIdx a xs + 1

theorem firstIdx_cons_self [DecidableEq α] (a : α) (l : List α) :
    firstIdx a (a :: l) = 0 := by simp [firstIdx]

theorem firstIdx_cons_ne [DecidableEq α] {a x : α} (l : List α) (h : x ≠ a) :
    firstIdx a (x :: l) = firstIdx a l + 1 := by simp [firstIdx, h]

/-- `dedupFirst` lists values in order of their first occurrence. -/
theorem dedupFirst_pairwise_firstIdx [DecidableEq α] (l : List α) :
    (dedupFirst l).Pairwise (fun a b => firstIdx a l < firstIdx b l) := by
  induction l with
  | nil => simp
  | cons x xs ih =>
    rw [dedupFirst_cons]
    refine List.Pairwise.cons ?_ ?_
    · intro b hb
      rcases List.mem_filter.mp hb with ⟨-, hne⟩
      have hbx : b ≠ x := by simpa using hne
      rw [firstIdx_cons_self, firstIdx_cons_ne xs (fun h => hbx h.symm)]
      exact Nat.succ_pos _
    · have hsub : ((dedupFirst xs).filter (fun y => decide (y ≠ x))).Pairwise
          (fun a b => firstIdx a xs < firstIdx b xs) :=
        List.Pairwise.sublist (List.filter_sublist _) ih
      refine hsub.imp_of_mem ?_
      intro a b ha hb hlt
      have hax : a ≠ x := by simpa using (List.mem_filter.mp ha).2
      have hbx : b ≠ x := by simpa using (List.mem_filter.mp hb).2
      rw [firstIdx_cons_ne xs (fun h => hax h.symm),
        firstIdx_cons_ne xs (fun h => hbx h.symm)]
      omega

/-- Surrogate-key assignment `range(n, ...)`: pair each value with
consecutive integers starting at `n`. -/
def withKeysFrom (n : Nat) : List α → List (α × Nat)
  | [] => []
  | x :: xs => (x, n) :: withKeysFrom (n + 1) xs

/-- `df[id] = range(1, len(df) + 1)`: pair each value with its surrogate
key, keys starting at 1 in list order. -/
def withKeys (l : List α) : List (α × Nat) := withKeysFrom 1 l

theorem withKeysFrom_map_fst (n : Nat) (l : List α) :
    (withKeysFrom n l).map Prod.fst = l := by
  induction l generalizing n with
  | nil => rfl
  | cons x xs ih => simp [withKeysFrom, ih]

theorem withKeysFrom_map_snd (n : Nat) (l : List α) :
    (withKeysFrom n l).map Prod.snd = List.range' n l.length := by
  induction l generalizing n with
  | nil => rfl
  | cons x xs ih => simp [withKeysFrom, ih, List.range']

theorem withKeysFrom_length (n : Nat) (l : List α) :
    (withKeysFrom n l).length = l.length := by
  induction l generalizing n with
  | nil => rfl
  | cons x xs ih => simp [withKeysFrom, ih]

theorem withKeys_map_fst (l : List α) : (withKeys l).map Prod.fst = l :=
  withKeysFrom_map_fst 1 l

theorem withKeys_map_snd (l : List α) :
    (withKeys l).map Prod.snd = List.range' 1 l.length :=
  withKeysFrom_map_snd 1 l

theorem withKeys_length (l : List α) : (withKeys l).length = l.length :=
  withKeysFrom_length 1 l

/-- Python dict lookup on an association list (`mapping.get(k)` /
`series.map(mapping)` for one value).  All mappings in the script are built
from deduplicated columns, so keys are distinct and the first match is the
only match. -/
def alookup [DecidableEq κ] : List (κ × Nat) → κ → Option Nat
  | [], _ => none
  | p :: m, k => if p.1 = k then some p.2 else alookup m k

theorem alookup_eq_none_iff [DecidableEq κ] {m : List (κ × Nat)} {k : κ} :
    alookup m k = none ↔ k ∉ m.map Prod.fst := by
  induction m with
  | nil => simp [alookup]
  | cons p t ih =>
    by_cases h : p.1 = k
    · simp [alookup, h]
    · simp [alookup, h, ih, Ne.symm h]

theorem alookup_mem [DecidableEq κ] {m : List (κ × Nat)} {k : κ} {v : Nat}
    (h : alookup m k = some v) : (k, v) ∈ m := by
  induction m with
  | nil => simp [alookup] at h
  | cons p t ih =>
    by_cases hp : p.1 = k
    · rw [alookup, if_pos hp] at h
      have hv : p.2 = v := by injection h
      have hpe : (k, v) = p := by cases p; cases hp; cases hv; rfl
      rw [hpe]
      exact List.mem_cons_self _ _
    · rw [alookup, if_neg hp] at h
      exact List.mem_cons_of_mem _ (ih h)

theorem mem_alookup [DecidableEq κ] {m : List (κ × Nat)} {k : κ} {v : Nat}
    (hnd : (m.map Prod.fst).Nodup) (h : (k, v) ∈ m) : alookup m k = some v := by
  induction m with
  | nil => simp at h
  | cons p t ih =>
    rcases List.mem_cons.mp h with h1 | h1
    · subst h1; simp [alookup]
    · have hk : k ∈ t.map Prod.fst := List.mem_map.mpr ⟨(k, v), h1, rfl⟩
      have hp : p.1 ≠ k := by
        intro he
        exact (List.nodup_cons.mp hnd).1 (he ▸ hk)
      rw [alookup, if_neg hp]
      exact ih (List.nodup_cons.mp hnd).2 h1

theorem alookup_iff_mem [DecidableEq κ] {m : List (κ × Nat)} {k : κ} {v : Nat}
    (hnd : (m.map Prod.fst).Nodup) : (k, v) ∈ m ↔ alookup m k = some v :=
  ⟨mem_alookup hnd, alookup_mem⟩

theorem alookup_mem_map_snd [DecidableEq κ] {m : List (κ × Nat)} {k : κ} {v : Nat}
    (h : alookup m k = some v) : v ∈ m.map Prod.snd :=
  List.mem_map.mpr ⟨(k, v), alookup_mem h, rfl⟩

/-- The generic simple-dimension construction shared by all five simple
dimensions in the script: deduplicate the extracted column, then assign
surrogate keys `range(1, len + 1)`.  The same list doubles as the
natural-key to surrogate-key mapping (`set_index(col)[id].to_dict()`). -/
def simpleDim [DecidableEq α] (vals : List α) : List (α × Nat) :=
  withKeys (dedupFirst vals)

theorem simpleDim_map_fst [DecidableEq α] (vals : List α) :
    (simpleDim vals).map Prod.fst = dedupFirst vals :=
  withKeys_map_fst _

theorem simpleDim_map_snd [DecidableEq α] (vals : List α) :
    (simpleDim vals).map Prod.snd = List.range' 1 (simpleDim vals).length := by
  rw [simpleDim, withKeys_map_snd, withKeys_length]

theorem simpleDim_keys_nodup [DecidableEq α] (vals : List α) :
    ((simpleDim vals).map Prod.fst).Nodup := by
  rw [simpleDim_map_fst]; exact nodup_dedupFirst vals

theorem simpleDim_ids_nodup [DecidableEq α] (vals : List α) :
    ((simpleDim vals).map Prod.snd).Nodup := by
  rw [simpleDim_map_snd]; exact List.nodup_range' _ _

/-- pandas `drop_duplicates(subset=[key], keep=first)` on whole rows:
keep the first row carrying each key value. -/
def dedupByKey [DecidableEq κ] (key : α → κ) : List α → List α
  | [] => []
  | x :: xs => x :: (dedupByKey key xs).filter (fun y => decide (key y ≠ key x))

theorem dedupByKey_cons [DecidableEq κ] (key : α → κ) (x : α) (xs : List α) :
    dedupByKey key (x :: xs) =
      x :: (dedupByKey key xs).filter (fun y => decide (key y ≠ key x)) := rfl

theorem map_filter_comm (f : α → κ) (p : κ → Bool) (l : List α) :
    (l.filter (fun y => p (f y))).map f = (l.map f).filter p := by
  induction l with
  | nil => rfl
  | cons y ys ih =>
    by_cases hy : p (f y)
    · simp [List.filter_cons, hy, ih]
    · simp [List.filter_cons, hy, ih]

theorem dedupByKey_map_key [DecidableEq κ] (key : α → κ) (l : List α) :
    (dedupByKey key l).map key = dedupFirst (l.map key) := by
  induction l with
  | nil => rfl
  | cons x xs ih =>
    rw [dedupByKey_cons, List.map_cons, List.map_cons, dedupFirst_cons, ← ih]
    congr 1
    exact map_filter_comm key (fun v => decide (v ≠ key x)) (dedupByKey key xs)

theorem dedupByKey_sublist [DecidableEq κ] (key : α → κ) (l : List α) :
    (dedupByKey key l).Sublist l := by
  induction l with
  | nil => simp [dedupByKey]
  | cons x xs ih =>
    rw [dedupByKey_cons]
    exact List.Sublist.cons₂ x ((List.filter_sublist _).trans ih)

theorem mem_dedupByKey [DecidableEq κ] {key : α → κ} {l : List α} {a : α}
    (h : a ∈ dedupByKey key l) : a ∈ l :=
  (dedupByKey_sublist key l).subset h

/-- Each row kept by `dedupByKey` is the first row of the input carrying
its key value (`keep=first`). -/
theorem dedupByKey_find? [DecidableEq κ] {key : α → κ} {l : List α} {a : α}
    (h : a ∈ dedupByKey key l) :
    l.find? (fun z => decide (key z = key a)) = some a := by
  induction l with
  | nil => simp [dedupByKey] at h
  | cons x xs ih =>
    rw [dedupByKey_cons] at h
    rcases List.mem_cons.mp h with h1 | h1
    · subst h1
      simp [List.find?]
    · have hka : key a ≠ key x := by simpa using (List.mem_filter.mp h1).2
      have hmem : a ∈ dedupByKey key xs := (List.mem_filter.mp h1).1
      rw [List.find?_cons_of_neg]
      · exact ih hmem
      · simp
        exact fun he => hka he.symm

/-!
Data model.  The raw table (`raw_df` after the column-name normalization of
lines 25-29) is a `List RawRow` together with a `Cols` record saying which
optional columns are present in this dataset (column presence is a property
of the whole DataFrame; an absent column is tested by the script with
`col in raw_df.columns` / `col in row`).  A present column still has
`Option`-valued cells: `none` is a missing value (`NaN` / `NaT`).
Timestamps after `pd.to_datetime(errors=coerce)` are nanoseconds since the
Unix epoch (`none` is `NaT`).  The `comm_id` column itself is required by
line 32 before any of the embedded logic runs, so it carries no presence
flag.
-/

/-- A person structure occurring inside a participant payload: a decoded
JSON object (dict with the five fields the script reads), a bare string,
or any other value (skipped by lines 117-121). -/
inductive PItem where
  | obj (email name displayName location phoneNumber : Option String)
  | str (s : String)
  | other
deriving DecidableEq

/-- The value held by a participant-role cell, classified the way
`process_user_data` (lines 98-112) observes it: a Python string whose
`json.loads` yields a list, a string whose `json.loads` yields a single
non-list value, a string that is not valid JSON (carried so the fallback
person can be built from it), an already-decoded native list, or a native
non-string non-list object.  A string equal to the literal `[]` decodes to
the empty list, so it is covered by `jsonList []`; the `invalid` case keeps
the raw text for the line-99 comparison with that literal. -/
inductive Payload where
  | jsonList (xs : List PItem)
  | jsonOne (x : PItem)
  | invalid (raw : String)
  | nlist (xs : List PItem)
  | nobj (x : PItem)
deriving DecidableEq

/-- Which optional columns this dataset has (after name normalization). -/
structure Cols where
  source_id : Bool
  event_type : Bool
  event_title : Bool
  start_time : Bool
  audio_url : Bool
  video_url : Bool
  transcript_url : Bool
  created_at : Bool
  updated_at : Bool
  is_processed : Bool
  raw_title : Bool
  duration_seconds : Bool
  organizer_email : Bool
  organizer_name : Bool
  organizer_location : Bool
  organizer_display_name : Bool
  organizer_phone_number : Bool
  attendees : Bool
  participants : Bool
  speakers : Bool
deriving DecidableEq

/-- One row of the normalized raw table.  Cells of absent columns are
ignored by every consumer (all access is gated on the `Cols` flags).
`is_processed` is kept as a plain Bool: the script only coerces it with
`astype(int)` and no claim concerns a missing flag value. -/
structure RawRow where
  comm_id : Option String
  source_id : Option String
  event_type : Option String
  event_title : Option String
  start_time : Option Int
  audio_url : Option String
  video_url : Option String
  transcript_url : Option String
  created_at : Option Int
  updated_at : Option Int
  is_processed : Bool
  raw_title : Option String
  duration_seconds : Option String
  organizer_email : Option String
  organizer_name : Option String
  organizer_location : Option String
  organizer_display_name : Option String
  organizer_phone_number : Option String
  attendees : Option Payload
  participants : Option Payload
  speakers : Option Payload
deriving DecidableEq

/-- Lines 32-35: if `comm_id` is not unique, keep the first occurrence of
each `comm_id` (`drop_duplicates(subset=[comm_id], keep=first)`; when the
column is already unique this is the identity, so it is applied
unconditionally). -/
def dedup_comm_id (rows : List RawRow) : List RawRow :=
  dedupByKey (fun r => r.comm_id) rows

/-!
Dimension builders.  Each simple dimension is a list of
(natural value, surrogate id) pairs; the same association list is the
natural-key to surrogate-key mapping handed to the fact assembler.
`dim_comm_type` (lines 54-66) and `dim_subject` (lines 73-85) apply
`drop_duplicates` WITHOUT `dropna`, so a missing value is kept and becomes
a dimension row of its own (its key is `none`); `dim_audio`, `dim_video`
and `dim_transcript` (lines 247-294) apply `dropna` first.  When the source
column is absent the script substitutes a fixed two-row dummy dimension.
-/

def dim_comm_type (present : Bool) (rows : List RawRow) : List (Option String × Nat) :=
  if present then simpleDim (rows.map (fun r => r.event_type))
  else [(some "Meeting", 1), (some "Call", 2)]

def dim_subject (present : Bool) (rows : List RawRow) : List (Option String × Nat) :=
  if present then simpleDim (rows.map (fun r => r.event_title))
  else [(some "Project Review", 1), (some "Team Sync", 2)]

def dim_audio (present : Bool) (rows : List RawRow) : List (String × Nat) :=
  if present then simpleDim (rows.filterMap (fun r => r.audio_url))
  else [("http://dummy.com/audio1.mp3", 1), ("http://dummy.com/audio2.mp3", 2)]

def dim_video (present : Bool) (rows : List RawRow) : List (String × Nat) :=
  if present then simpleDim (rows.filterMap (fun r => r.video_url))
  else [("http://dummy.com/video1.mp4", 1), ("http://dummy.com/video2.mp4", 2)]

def dim_transcript (present : Bool) (rows : List RawRow) : List (String × Nat) :=
  if present then simpleDim (rows.filterMap (fun r => r.transcript_url))
  else [("http://dummy.com/trans1.txt", 1), ("http://dummy.com/trans2.txt", 2)]

/-- Nanoseconds per calendar day. -/
def nsPerDay : Int := 86400000000000

/-- `Series.dt.normalize()`: midnight of the timestamp day (floor to a
multiple of a day, also for pre-1970 timestamps). -/
def normalizeNs (ts : Int) : Int := ts - ts % nsPerDay

/-- Lines 213-240: the calendar dimension, keyed by the normalized date.
The script keys its mapping by the date rendered as `YYYY-MM-DD`; rendering
is injective on distinct midnights, so we key by the normalized timestamp
itself, which has exactly the same join semantics.  The per-date decoration
columns (year, month, weekday and friends) are derived attributes no claim
touches and are not carried.  The dummy branch uses the two dummy dates
2023-01-01 and 2023-01-02 (their midnight timestamps in nanoseconds). -/
def dim_calendar (present : Bool) (rows : List RawRow) : List (Int × Nat) :=
  if present then
    simpleDim ((rows.filterMap (fun r => r.start_time)).map normalizeNs)
  else [(1672531200000000000, 1), (1672617600000000000, 2)]

/-!
Fact assembler (lines 302-361).
Line 302 selects thirteen columns from `raw_df` with a hard
`raw_df[[...]]` projection: if any of them is absent from the dataset this
raises `KeyError` (the "filter to only existing columns" reorder at line
361 never runs).  When the selection succeeds, the build still never
completes: the selection includes BOTH `event_title` and `raw_title`, and
the rename at line 319 does not merge or overwrite - it relabels
`event_title` to `raw_title`, leaving the frame with two columns named
`raw_title`.  Line 328 (`comm_type_id`) still runs, but at line 329
`fact_communication[raw_title]` selects a two-column DataFrame and
`.map(subject_mapping)` on it raises in every pandas version
(`AttributeError` before 2.1, where DataFrame has no `map`; `TypeError`
from 2.1 on, where `DataFrame.map` requires a callable; and were it
applied elementwise, assigning the two-column result to the single
`subject_id` column raises `ValueError`).  So `fact_communication` is
never produced: every run of this component errors at line 302 or at
line 329, and everything after line 329 - calendar/audio/video/transcript
resolution, the `datetime_id` cast at line 341 and the final reorder at
line 361 - is dead code.
-/

def keyErr : String := "KeyError: fact source column missing"

def dupRawTitleErr : String :=
  "exception at line 329: the raw_title selection is a two-column DataFrame after the rename duplicated the label, and mapping a dict over it fails in every pandas version"

/-- The thirteen columns selected at lines 302-316 (besides `comm_id`,
which is required earlier at line 32). -/
def requiredFactCols (c : Cols) : Bool :=
  c.source_id && c.event_type && c.event_title && c.start_time &&
  c.audio_url && c.video_url && c.transcript_url && c.created_at &&
  c.updated_at && c.is_processed && c.raw_title && c.duration_seconds

/-- The canonical fact-row shape of lines 355-359.  No value of this type
is ever produced by `fact_communication`: it only names the intended
result type of the component. -/
structure FactRow where
  comm_id : Option String
  source_id : Option String
  comm_type_id : Nat
  subject_id : Nat
  calendar_id : Nat
  audio_id : Nat
  video_id : Nat
  transcript_id : Nat
  datetime_id : Int
  ingested_at : Option Int
  processed_at : Option Int
  is_processed : Nat
  raw_title : Option String
  raw_duration : Option String
deriving DecidableEq

/-- The fact table build (lines 302-361), run on the table left by the
`comm_id` deduplication of lines 32-35.  It never returns rows: with a
selected column absent, line 302 raises `KeyError`; otherwise line 329
raises on the duplicated `raw_title` label created by the rename at line
319 (see the section comment).  The row contents play no part: line 328
completes on any data and line 329 fails on the frame's shape alone. -/
def fact_communication (cols : Cols) (rows : List RawRow) :
    Except String (List FactRow) :=
  if requiredFactCols cols then Except.error dupRawTitleErr
  else Except.error keyErr

/-!
Participant normalizer (lines 92-192) and role bridge (lines 198-205).

The script keeps three globals: `all_users`, `user_email_to_id` and
`user_id_counter`.  Inside `process_user_data` the statement
`user_id_counter += 1` (line 142) is an assignment without a `global`
declaration, so Python makes `user_id_counter` local to the function and
the read at line 133 raises `UnboundLocalError` for every person whose
email is not yet in `user_email_to_id`.  (Even with a `global` statement,
line 135 references the undefined name `user_id_to_id`, a `NameError`.)
Consequently no user is ever recorded: the only mutation paths raise.
A second defect sits in the `except TypeError` handler (lines 110-112):
when the cell already holds a native list, `json.loads` raises
`TypeError`, the handler does nothing because the value IS a list, and the
iteration at line 115 reads the never-assigned `users_raw`
(`UnboundLocalError`; for a native list of length other than one the
`pd.isna` truth test at line 99 already raises `ValueError` on the
element-wise array).  We model each raised exception as `Except.error`
with a string naming it.
-/

def unboundCounterErr : String :=
  "UnboundLocalError: local variable user_id_counter referenced before assignment"

def unboundUsersRawErr : String :=
  "UnboundLocalError: local variable users_raw referenced before assignment"

def ambiguousTruthErr : String :=
  "ValueError: the truth value of an array is ambiguous"

def emptyUsersErr : String := "KeyError: user_id on the empty dim_user frame"

def emptyRelationsErr : String := "KeyError: comm_id on the empty bridge frame"

/-- One row of `dim_user` (the dicts appended to `all_users`). -/
structure UserRow where
  user_id : Nat
  name : Option String
  email : String
  location : Option String
  displayName : Option String
  phoneNumber : Option String
deriving DecidableEq

/-- One role relation appended to `comm_user_relations` (lines 146-153):
the four flags are 0/1 integers, later combined with `max`. -/
structure Relation where
  comm_id : Option String
  user_id : Nat
  isAttendee : Nat
  isParticipant : Nat
  isSpeaker : Nat
  isOrganiser : Nat
deriving DecidableEq

/-- The module-level mutable state (lines 92-95). -/
structure UState where
  all_users : List UserRow
  user_email_to_id : List (String × Nat)
  user_id_counter : Nat
deriving DecidableEq

def initState : UState :=
  { all_users := [], user_email_to_id := [], user_id_counter := 1 }

/-- Python truthiness of the optional string values read from a person
dict: `None` and the empty string are falsy (line 129 `if not email`). -/
def truthy : Option String → Bool
  | none => false
  | some s => !(s == "")

/-- Python `a or b` on such values: `b` when `a` is falsy, else `a`. -/
def pyOr (a b : Option String) : Option String := if truthy a then a else b

/-- Lines 146-163: build a relation with exactly the triggering role flag
set (the `if/elif` chain on `role_type`). -/
def mkRelation (cid : Option String) (uid : Nat) (role : String) : Relation :=
  { comm_id := cid
    user_id := uid
    isAttendee := if role == "attendees" then 1 else 0
    isParticipant := if role == "participants" then 1 else 0
    isSpeaker := if role == "speakers" then 1 else 0
    isOrganiser := if role == "organizer" then 1 else 0 }

/-- Lines 99-112: turn the raw cell value into the list `users_raw`, or
raise.  A string decoding to a list is used as is (the literal `[]` is
returned early at line 99 and also decodes to `[]`); a string decoding to
a single value is wrapped into a one-element list (lines 104-105); an
undecodable string becomes the single fallback person whose email and name
are the string itself (line 109), unless it is the literal `[]`; a native
non-list value is wrapped by the `TypeError` handler; a native list always
raises, in a length-dependent way: `pd.isna` of a list is an element-wise
array whose truth test at the guards (line 185, line 99) raises
`ValueError` except for a one-element list, and for the one-element list
`json.loads` raises `TypeError`, whose handler wraps only non-list values,
leaving `users_raw` unassigned so that line 115 raises
`UnboundLocalError` (see the section comment). -/
def decodePayload : Payload → Except String (List PItem)
  | Payload.jsonList xs => Except.ok xs
  | Payload.jsonOne x => Except.ok [x]
  | Payload.invalid raw =>
      if raw == "[]" then Except.ok []
      else Except.ok [PItem.obj (some raw) (some raw) none none none]
  | Payload.nlist xs =>
      if xs.length == 1 then Except.error unboundUsersRawErr
      else Except.error ambiguousTruthErr
  | Payload.nobj x => Except.ok [x]

/-- Lines 117-127: normalize one item to its extracted person fields
(email, resolved name, resolved display name, location, phone number).
A dict passes through the `get` calls and the `or` fallback chains of
lines 124-127; a bare string becomes a person whose email and name are
the string (lines 118-119); anything else is skipped (`none`). -/
def personFields (it : PItem) :
    Option (Option String × Option String × Option String ×
      Option String × Option String) :=
  match it with
  | PItem.other => none
  | PItem.str s => some (some s, some s, some s, none, none)
  | PItem.obj email nm dnm loc phone =>
      let name := pyOr nm (pyOr dnm email)
      let display_name := pyOr dnm name
      some (email, name, display_name, loc, phone)

/-- Lines 115-163: the per-person loop.  A non-dict non-string item is
skipped; a person without truthy email is skipped entirely (line 129,
`pd.isna` on a string is always false); a person whose email is already
known yields one relation with the triggering role flag (lines 144-163);
a person with a fresh email raises `UnboundLocalError` at line 133 (and
would hit the `user_id_to_id` NameError at line 135 even with a `global`
declaration).  The state is read but never changed: the only writes sit
on the raising path, so the resolved attribute fields are never
consumed. -/
def processItems (st : UState) (cid : Option String) (role : String) :
    List PItem → Except String (List Relation)
  | [] => Except.ok []
  | it :: rest =>
    match personFields it with
    | none => processItems st cid role rest
    | some (email, _name, _dname, _loc, _phone) =>
      if truthy email then
        match email with
        | some em =>
            match alookup st.user_email_to_id em with
            | none => Except.error unboundCounterErr
            | some uid =>
                match processItems st cid role rest with
                | Except.error e => Except.error e
                | Except.ok rs => Except.ok (mkRelation cid uid role :: rs)
        | none => processItems st cid role rest
      else processItems st cid role rest

/-- `process_user_data(comm_id, user_list_str, role_type)` of lines
98-164, with the state passed explicitly.  The callers only invoke it on
non-missing cells, matching their `pd.notna` guards. -/
def process_user_data (st : UState) (comm_id : Option String)
    (value : Payload) (role_type : String) : Except String (List Relation) :=
  match decodePayload value with
  | Except.error e => Except.error e
  | Except.ok items => processItems st comm_id role_type items

/-- Lines 173-179: the organizer dict synthesized from the
organizer-prefixed columns.  `row.get(label, default)` yields the default
only when the column is absent; a present column contributes its cell.
(A present-but-missing cell surfaces in Python as a NaN float, which the
truthiness chain treats as truthy; that distinction is unreachable in any
outcome because every fresh email raises first, and we model such cells as
`none`.) -/
def organizerItem (cols : Cols) (r : RawRow) : PItem :=
  PItem.obj
    r.organizer_email
    (if cols.organizer_name then r.organizer_name else r.organizer_email)
    (if cols.organizer_display_name then r.organizer_display_name else none)
    (if cols.organizer_location then r.organizer_location else none)
    (if cols.organizer_phone_number then r.organizer_phone_number else none)

/-- Lines 167-187: process one raw row.  The organizer, when its column is
present and the cell non-missing, is serialized with
`json.dumps([organizer_info])` - a string that decodes back to the
one-element list, never equal to the literal `[]` - and pushed through
`process_user_data` with role `organizer`; then the three list-valued
role columns are processed when present and non-missing. -/
def processRow (cols : Cols) (st : UState) (r : RawRow) :
    Except String (List Relation) :=
  let orgStep : Except String (List Relation) :=
    if cols.organizer_email && r.organizer_email.isSome then
      process_user_data st r.comm_id (Payload.jsonList [organizerItem cols r]) "organizer"
    else Except.ok []
  let roleStep (present : Bool) (cell : Option Payload) (role : String) :
      Except String (List Relation) :=
    if present then
      match cell with
      | some v => process_user_data st r.comm_id v role
      | none => Except.ok []
    else Except.ok []
  match orgStep with
  | Except.error e => Except.error e
  | Except.ok rs0 =>
    match roleStep cols.attendees r.attendees "attendees" with
    | Except.error e => Except.error e
    | Except.ok rs1 =>
      match roleStep cols.participants r.participants "participants" with
      | Except.error e => Except.error e
      | Except.ok rs2 =>
        match roleStep cols.speakers r.speakers "speakers" with
        | Except.error e => Except.error e
        | Except.ok rs3 => Except.ok (rs0 ++ rs1 ++ rs2 ++ rs3)

/-- The row loop of lines 167-187 threaded over the deduplicated table. -/
def buildRelations (cols : Cols) (st : UState) :
    List RawRow → Except String (UState × List Relation)
  | [] => Except.ok (st, [])
  | r :: rest =>
    match processRow cols st r with
    | Except.error e => Except.error e
    | Except.ok rs =>
      match buildRelations cols st rest with
      | Except.error e => Except.error e
      | Except.ok (st2, more) => Except.ok (st2, rs ++ more)

/-- `max` aggregation of one flag over a group (line 200-205). -/
def flagMax (grp : List Relation) (f : Relation → Nat) : Nat :=
  (grp.map f).foldr Nat.max 0

/-- Lines 198-205: group the relations by (comm_id, user_id) and combine
each flag with `max` (1 when any occurrence set it).  pandas `groupby`
with its default `dropna=True` silently drops rows whose key contains a
missing value, so relations with a missing `comm_id` form no group
(`user_id` is an integer and never missing); and it emits the groups in
sorted key order, while we emit them in first-seen order, which differs
only in row order and no claim depends on row order. -/
def bridge_comm_user (rels : List Relation) : List Relation :=
  (dedupFirst ((rels.filter (fun r => r.comm_id.isSome)).map
      (fun r => (r.comm_id, r.user_id)))).map (fun k =>
    let grp := rels.filter (fun r => decide ((r.comm_id, r.user_id) = k))
    { comm_id := k.1
      user_id := k.2
      isAttendee := flagMax grp (fun r => r.isAttendee)
      isParticipant := flagMax grp (fun r => r.isParticipant)
      isSpeaker := flagMax grp (fun r => r.isSpeaker)
      isOrganiser := flagMax grp (fun r => r.isOrganiser) })

/-- Insertion sort by `user_id`, modeling `sort_values` at line 192
(unreachable in any run, see `dim_user_bridge`). -/
def insertByUserId (u : UserRow) : List UserRow → List UserRow
  | [] => [u]
  | v :: vs =>
      if u.user_id ≤ v.user_id then u :: v :: vs else v :: insertByUserId u vs

def sortByUserId (l : List UserRow) : List UserRow :=
  l.foldr insertByUserId []

/-- Lines 92-205: the whole user sub-pipeline.  After the row loop,
line 190 builds `pd.DataFrame(all_users)` and deduplicates on `user_id`:
on an empty `all_users` the frame has no columns and
`drop_duplicates(subset=[user_id])` raises `KeyError`; likewise line 200
raises on an empty relation frame.  Since the only code path that appends
a user raises, every run of this sub-pipeline errors - at the first fresh
email, or at line 190 when no person with an email was ever seen. -/
def dim_user_bridge (cols : Cols) (rows : List RawRow) :
    Except String (List UserRow × List Relation) :=
  match buildRelations cols initState (dedup_comm_id rows) with
  | Except.error e => Except.error e
  | Except.ok (st, rels) =>
    if st.all_users.isEmpty then Except.error emptyUsersErr
    else if rels.isEmpty then Except.error emptyRelationsErr
    else
      Except.ok
        (sortByUserId (dedupByKey (fun u => u.user_id) st.all_users),
         bridge_comm_user rels)

/-!
Concrete fixtures used by the evaluation theorems, counterexamples and
witnesses below.
-/

/-- A dataset carrying every column the fact assembler selects, plus
organizer and participant columns. -/
def allCols : Cols :=
  { source_id := true, event_type := true, event_title := true,
    start_time := true, audio_url := true, video_url := true,
    transcript_url := true, created_at := true, updated_at := true,
    is_processed := true, raw_title := true, duration_seconds := true,
    organizer_email := true, organizer_name := true,
    organizer_location := false, organizer_display_name := false,
    organizer_phone_number := false, attendees := true,
    participants := true, speakers := true }

/-- `allCols` minus the `audio_url` column. -/
def noAudioCols : Cols := { allCols with audio_url := false }

/-- `allCols` minus the `video_url` column. -/
def noVideoCols : Cols := { allCols with video_url := false }

/-- A fully populated event row. -/
def baseRow : RawRow :=
  { comm_id := some "evt1", source_id := some "src1",
    event_type := some "Meeting", event_title := some "Planning",
    start_time := some 1700000000000000000,
    audio_url := some "http://x/a.mp3", video_url := some "http://x/v.mp4",
    transcript_url := some "http://x/t.txt",
    created_at := some 1699000000000000000,
    updated_at := some 1699100000000000000, is_processed := true,
    raw_title := some "Planning", duration_seconds := some "3600",
    organizer_email := none, organizer_name := none,
    organizer_location := none, organizer_display_name := none,
    organizer_phone_number := none, attendees := none,
    participants := none, speakers := none }

/-- A row whose `event_type` cell is missing. -/
def c4row : RawRow := { baseRow with event_type := none }

/-- An event whose organizer also appears as attendee under the same
email. -/
def c3row : RawRow :=
  { baseRow with
    organizer_email := some "b@x.com"
    attendees := some (Payload.jsonList
      [PItem.obj (some "b@x.com") (some "B") none none none]) }

/-- A state in which the email `a@x.com` is already known with user id 1,
as the script globals would hold it had the recording path worked. -/
def seenUser : UserRow :=
  { user_id := 1, name := some "A", email := "a@x.com",
    location := none, displayName := some "A", phoneNumber := none }

def seenState : UState :=
  { all_users := [seenUser],
    user_email_to_id := [("a@x.com", 1)],
    user_id_counter := 2 }

/-- C1: the claim says an unparseable participant value such as the string
"not json" never raises and yields one user with email and name both equal
to that string.  On the code, the fallback person IS built, but recording
any person with a fresh email raises `UnboundLocalError` at line 133
(`user_id_counter` is local for want of a `global` declaration; line 135
would then hit the undefined name `user_id_to_id`).  Both the function call
and the full user sub-pipeline error out. -/
theorem c1_not_json_raises :
    process_user_data initState (some "evt1") (Payload.invalid "not json")
        "attendees" = Except.error unboundCounterErr ∧
    dim_user_bridge allCols
        [{ baseRow with attendees := some (Payload.invalid "not json") }] =
      Except.error unboundCounterErr :=
  ⟨rfl, rfl⟩

/-- C2: a person without an email is silently skipped (that half of the
claim holds), but a person with a fresh email does not receive the next
surrogate id - the code raises `UnboundLocalError` instead of recording
the user. -/
theorem c2_fresh_email_raises :
    process_user_data initState (some "evt1")
        (Payload.jsonList [PItem.obj none (some "A") none none none])
        "attendees" = Except.ok [] ∧
    process_user_data initState (some "evt1")
        (Payload.jsonList [PItem.obj (some "a@x.com") (some "A") none none none])
        "attendees" = Except.error unboundCounterErr :=
  ⟨rfl, rfl⟩

/-- C3: for an event whose organizer is also an attendee under the same
email, the claim promises a single bridge row with both flags and a single
`dim_user` row.  On the code the organizer - the first fresh email - already
raises `UnboundLocalError`, so neither table is ever produced. -/
theorem c3_organizer_attendee_raises :
    dim_user_bridge allCols [c3row] = Except.error unboundCounterErr := rfl

/-- C6: a native (already-decoded) single object is indeed coerced to a
one-element list and processed like any other person structure (here with
an already-seen email, the only path that does not hit the fresh-email
defect), but a native LIST raises: the `except TypeError` handler of lines
110-112 only wraps non-list values, leaving `users_raw` unassigned when
the value is already a list. -/
theorem c6_native_values :
    process_user_data seenState (some "evt1")
        (Payload.nobj (PItem.obj (some "a@x.com") (some "A") none none none))
        "speakers" =
      Except.ok [mkRelation (some "evt1") 1 "speakers"] ∧
    mkRelation (some "evt1") 1 "speakers" =
      { comm_id := some "evt1", user_id := 1, isAttendee := 0,
        isParticipant := 0, isSpeaker := 1, isOrganiser := 0 } ∧
    process_user_data seenState (some "evt1")
        (Payload.nlist [PItem.obj (some "a@x.com") (some "A") none none none])
        "speakers" = Except.error unboundUsersRawErr :=
  ⟨rfl, rfl, rfl⟩

/-- C5 counterexample: the claim says rows missing the source value are
dropped for every simple dimension.  `dim_comm_type` is built without
`dropna`: a single row with a missing `event_type` yields a dimension row
whose natural key is the missing value, instead of an empty dimension. -/
theorem c5_counterexample :
    dim_comm_type true [{ baseRow with event_type := none }] = [(none, 1)] := rfl

/-- C9 counterexample: the claim says a column absent from the fact
table's inputs is simply omitted.  With `audio_url` absent, the hard
column selection of line 302 raises `KeyError` instead. -/
theorem c9_counterexample :
    fact_communication noAudioCols [baseRow] = Except.error keyErr := rfl

/-!
The behaviour of the simple-dimension builder, and the shape of a
successful fact build.
-/

/-- What it means for `dim` to be the simple dimension built from the
extracted value list `vals`: its natural keys are exactly the values of
`vals`, each once, ordered by first occurrence in `vals`; its surrogate
keys are 1, 2, ... in that order; and the mapping returns exactly the
surrogate key paired with a natural key. -/
def SimpleDimOk [DecidableEq α] (dim : List (α × Nat)) (vals : List α) : Prop :=
  (dim.map Prod.fst).Nodup ∧
  (∀ a, a ∈ dim.map Prod.fst ↔ a ∈ vals) ∧
  (dim.map Prod.fst).Pairwise (fun a b => firstIdx a vals < firstIdx b vals) ∧
  dim.map Prod.snd = List.range' 1 dim.length ∧
  (∀ a k, (a, k) ∈ dim ↔ alookup dim a = some k)

theorem simpleDim_ok [DecidableEq α] (vals : List α) :
    SimpleDimOk (simpleDim vals) vals := by
  refine ⟨simpleDim_keys_nodup vals, ?_, ?_, simpleDim_map_snd vals, ?_⟩
  · intro a
    rw [simpleDim_map_fst]
    exact mem_dedupFirst
  · rw [simpleDim_map_fst]
    exact dedupFirst_pairwise_firstIdx vals
  · intro a k
    exact alookup_iff_mem (simpleDim_keys_nodup vals)

/-- C5 (amended): for each simple dimension built from a present source
column, the retained values are deduplicated and receive surrogate keys
1, 2, ... in first-seen order, and the returned mapping sends each
retained value to its surrogate key.  For `dim_audio`, `dim_video` and
`dim_transcript` the retained values are the NON-MISSING cells
(`dropna` was applied, hence the `filterMap`); for `dim_comm_type` and
`dim_subject` no `dropna` is applied, so ALL cells are retained and a
missing value becomes a dimension value of its own - the one point where
the claim as stated fails. -/
theorem c5_amended (rows : List RawRow) :
    SimpleDimOk (dim_audio true rows) (rows.filterMap (fun r => r.audio_url)) ∧
    SimpleDimOk (dim_video true rows) (rows.filterMap (fun r => r.video_url)) ∧
    SimpleDimOk (dim_transcript true rows)
      (rows.filterMap (fun r => r.transcript_url)) ∧
    SimpleDimOk (dim_comm_type true rows) (rows.map (fun r => r.event_type)) ∧
    SimpleDimOk (dim_subject true rows) (rows.map (fun r => r.event_title)) := by
  refine ⟨?_, ?_, ?_, ?_, ?_⟩
  · rw [dim_audio, if_pos rfl]; exact simpleDim_ok _
  · rw [dim_video, if_pos rfl]; exact simpleDim_ok _
  · rw [dim_transcript, if_pos rfl]; exact simpleDim_ok _
  · rw [dim_comm_type, if_pos rfl]; exact simpleDim_ok _
  · rw [dim_subject, if_pos rfl]; exact simpleDim_ok _

/-- A second event row sharing `comm_id` with `baseRow` but differing in
title. -/
def dupTitleRow : RawRow := { baseRow with event_title := some "Other" }

/-- An event with a fresh `comm_id`. -/
def row2 : RawRow :=
  { baseRow with comm_id := some "evt2", event_type := some "Call" }

/-- A fresh-`comm_id` copy of the missing-`event_type` row. -/
def c4wrow : RawRow := { c4row with comm_id := some "evt3" }

/-- C4: the claim describes the intended foreign-key resolution with a
sentinel-0 fallback and retained fact rows.  The code resolves nothing:
for any dataset passing the line-302 selection (here one that would have
exercised the missing-`event_type` lookup), the fact build raises at line
329 on the duplicated `raw_title` label, so no fact row is ever produced
or retained. -/
theorem c4_fact_build_raises :
    requiredFactCols allCols = true ∧
    fact_communication allCols [baseRow, c4wrow] = Except.error dupRawTitleErr :=
  ⟨rfl, rfl⟩

/-!
C7: `comm_id` deduplication, and the fact table that never materializes.
-/

/-- An input with a duplicated `comm_id` (`dupTitleRow` repeats `evt1`). -/
def c7rows : List RawRow := [baseRow, dupTitleRow, row2]

/-- C7: the first half of the claim holds and is shown on a concrete
duplicated input - lines 32-35 keep the first occurrence of each
`comm_id` and the run continues past them: the deduplicated table is
`[baseRow, row2]` (the first `evt1` row wins), its identifier list is the
deduplicated input identifier list and is duplicate-free.  The second
half fails: `comm_id` is never unique IN `fact_communication` because no
fact table is ever produced - the build raises at line 329 on the
duplicated `raw_title` label. -/
theorem c7_dedup_first_fact_raises :
    dedup_comm_id c7rows = [baseRow, row2] ∧
    (dedup_comm_id c7rows).map (fun r => r.comm_id) =
      dedupFirst (c7rows.map (fun r => r.comm_id)) ∧
    ((dedup_comm_id c7rows).map (fun r => r.comm_id)).Nodup ∧
    (∀ r ∈ dedup_comm_id c7rows,
      c7rows.find? (fun z => decide (z.comm_id = r.comm_id)) = some r) ∧
    fact_communication allCols c7rows = Except.error dupRawTitleErr := by
  refine ⟨by decide, dedupByKey_map_key (fun r => r.comm_id) c7rows, ?_, ?_, rfl⟩
  · show ((dedupByKey (fun r : RawRow => r.comm_id) c7rows).map
      (fun r => r.comm_id)).Nodup
    rw [dedupByKey_map_key (fun r => r.comm_id) c7rows]
    exact nodup_dedupFirst _
  · intro r hr
    exact dedupByKey_find? hr

/-!
C8: `datetime_id`.
-/

/-- C8: the claim says a row with an unparseable start time gets
`datetime_id = 0`.  No `datetime_id` is ever computed: the build raises at
line 329, before the `astype(np.int64)` cast at line 341 is reached (that
cast would itself raise `ValueError` on `NaT` rather than produce 0, and
the `datetime_id = 0` fallback at line 343 concerns a dataset with no
`start_time` column, which the line-302 selection already turns into a
`KeyError`). -/
theorem c8_fact_raises_before_datetime :
    requiredFactCols allCols = true ∧
    fact_communication allCols [{ baseRow with start_time := none }] =
      Except.error dupRawTitleErr :=
  ⟨rfl, rfl⟩

/-!
C9: absent optional columns.
-/

/-- C9 (amended): a dimension whose source column is absent is replaced by
the fixed two-row placeholder dimension, which doubles as its mapping -
that half of the claim holds.  But a column absent from the fact table's
selected inputs does NOT lead to an omitted fact column: the hard column
selection of line 302 raises `KeyError`, so the fact build fails; in a
successful build all canonical fact columns exist and the final
filter-and-reorder omits nothing. -/
theorem c9_amended :
    (∀ rows, dim_comm_type false rows = [(some "Meeting", 1), (some "Call", 2)]) ∧
    (∀ rows, dim_subject false rows =
      [(some "Project Review", 1), (some "Team Sync", 2)]) ∧
    (∀ rows, dim_audio false rows =
      [("http://dummy.com/audio1.mp3", 1), ("http://dummy.com/audio2.mp3", 2)]) ∧
    (∀ rows, dim_video false rows =
      [("http://dummy.com/video1.mp4", 1), ("http://dummy.com/video2.mp4", 2)]) ∧
    (∀ rows, dim_transcript false rows =
      [("http://dummy.com/trans1.txt", 1), ("http://dummy.com/trans2.txt", 2)]) ∧
    (∀ rows, dim_calendar false rows =
      [(1672531200000000000, 1), (1672617600000000000, 2)]) ∧
    (∀ cols rows, requiredFactCols cols = false →
      fact_communication cols rows = Except.error keyErr) := by
  refine ⟨fun rows => rfl, fun rows => rfl, fun rows => rfl, fun rows => rfl,
    fun rows => rfl, fun rows => rfl, ?_⟩
  intro cols rows h
  rw [fact_communication]
  simp [h]

theorem c9_witness :
    requiredFactCols noVideoCols = false ∧
    fact_communication noVideoCols [row2] = Except.error keyErr :=
  ⟨rfl, c9_amended.2.2.2.2.2.2 noVideoCols [row2] rfl⟩

/-!
C10: the subject consistency that was never computed.
-/

/-- C10: the claim describes the intended dataflow - `raw_title` as the
renamed `event_title` and `subject_id` as the lookup of that same value
in the subject mapping.  In the code the rename duplicates the
`raw_title` label instead of merging it, and the very statement that
would compute `subject_id` (line 329) raises on the resulting two-column
selection: no fact row ever carries a `subject_id` or a `raw_title`. -/
theorem c10_subject_never_computed :
    requiredFactCols allCols = true ∧
    fact_communication allCols [baseRow] = Except.error dupRawTitleErr :=
  ⟨rfl, rfl⟩

/-!
Supporting facts about the role bridge aggregator (lines 198-205), stated
over an arbitrary relation list.  In the script this code is only ever
reached after the participant normalizer, whose defects are documented
above; the aggregation itself implements the claimed logical OR.
-/

theorem flagMax_nil (f : Relation → Nat) : flagMax [] f = 0 := rfl

theorem flagMax_cons (x : Relation) (xs : List Relation) (f : Relation → Nat) :
    flagMax (x :: xs) f = Nat.max (f x) (flagMax xs f) := rfl

/-- A positive threshold is reached by the `max` aggregate exactly when
some group member reaches it: `max` over 0/1 flags is the logical OR. -/
theorem le_flagMax_iff (grp : List Relation) (f : Relation → Nat) {n : Nat}
    (hn : 0 < n) : n ≤ flagMax grp f ↔ ∃ r ∈ grp, n ≤ f r := by
  induction grp with
  | nil =>
      rw [flagMax_nil]
      constructor
      · intro h
        omega
      · intro h
        rcases h with ⟨r, hr, -⟩
        simp at hr
  | cons x xs ih =>
      rw [flagMax_cons, le_max_iff]
      constructor
      · intro h
        rcases h with h | h
        · exact ⟨x, List.mem_cons_self x xs, h⟩
        · rcases ih.mp h with ⟨r, hr, hle⟩
          exact ⟨r, List.mem_cons_of_mem x hr, hle⟩
      · intro h
        rcases h with ⟨r, hr, hle⟩
        rcases List.mem_cons.mp hr with h1 | h1
        · subst h1
          exact Or.inl hle
        · exact Or.inr (ih.mpr ⟨r, h1, hle⟩)

/-- The pair of a bridge row built for key `k` is `k` itself. -/
theorem bridge_comm_user_map_pair (rels : List Relation) :
    (bridge_comm_user rels).map (fun b => (b.comm_id, b.user_id)) =
      dedupFirst ((rels.filter (fun r => r.comm_id.isSome)).map
        (fun r => (r.comm_id, r.user_id))) := by
  rw [bridge_comm_user, List.map_map]
  exact List.map_id _

/-- The bridge has exactly one row per distinct (comm_id, user_id) pair
occurring among the relations. -/
theorem bridge_comm_user_pairs_nodup (rels : List Relation) :
    ((bridge_comm_user rels).map (fun b => (b.comm_id, b.user_id))).Nodup := by
  rw [bridge_comm_user_map_pair]
  exact nodup_dedupFirst _

theorem bridge_comm_user_complete (rels : List Relation) (r : Relation)
    (hr : r ∈ rels) (hc : r.comm_id.isSome = true) :
    ∃ b ∈ bridge_comm_user rels, b.comm_id = r.comm_id ∧ b.user_id = r.user_id := by
  have hk : (r.comm_id, r.user_id) ∈
      dedupFirst ((rels.filter (fun r => r.comm_id.isSome)).map
        (fun r => (r.comm_id, r.user_id))) :=
    mem_dedupFirst.mpr (List.mem_map.mpr ⟨r, List.mem_filter.mpr ⟨hr, hc⟩, rfl⟩)
  refine ⟨_, List.mem_map.mpr ⟨(r.comm_id, r.user_id), hk, rfl⟩, rfl, rfl⟩

/-- Each flag of a bridge row is set (at least 1) exactly when some
relation of its (comm_id, user_id) group set it: the `max` aggregation is
the logical OR of the group's flags. -/
theorem bridge_comm_user_flags_or (rels : List Relation) (b : Relation)
    (hb : b ∈ bridge_comm_user rels) :
    (1 ≤ b.isAttendee ↔ ∃ r ∈ rels,
      r.comm_id = b.comm_id ∧ r.user_id = b.user_id ∧ 1 ≤ r.isAttendee) ∧
    (1 ≤ b.isParticipant ↔ ∃ r ∈ rels,
      r.comm_id = b.comm_id ∧ r.user_id = b.user_id ∧ 1 ≤ r.isParticipant) ∧
    (1 ≤ b.isSpeaker ↔ ∃ r ∈ rels,
      r.comm_id = b.comm_id ∧ r.user_id = b.user_id ∧ 1 ≤ r.isSpeaker) ∧
    (1 ≤ b.isOrganiser ↔ ∃ r ∈ rels,
      r.comm_id = b.comm_id ∧ r.user_id = b.user_id ∧ 1 ≤ r.isOrganiser) := by
  rw [bridge_comm_user] at hb
  rcases List.mem_map.mp hb with ⟨k, hk, rfl⟩
  have hflag : ∀ f : Relation → Nat,
      (1 ≤ flagMax (rels.filter (fun r => decide ((r.comm_id, r.user_id) = k))) f ↔
        ∃ r ∈ rels, r.comm_id = k.1 ∧ r.user_id = k.2 ∧ 1 ≤ f r) := by
    intro f
    rw [le_flagMax_iff _ _ Nat.one_pos]
    constructor
    · intro h
      rcases h with ⟨r, hrf, hle⟩
      rcases List.mem_filter.mp hrf with ⟨hrm, hcond⟩
      have hpair : (r.comm_id, r.user_id) = k := by simpa using hcond
      exact ⟨r, hrm, congrArg Prod.fst hpair, congrArg Prod.snd hpair, hle⟩
    · intro h
      rcases h with ⟨r, hrm, h1, h2, hle⟩
      refine ⟨r, List.mem_filter.mpr ⟨hrm, ?_⟩, hle⟩
      have hpair : (r.comm_id, r.user_id) = k := by
        rw [h1, h2]
      simpa using hpair
  exact ⟨hflag _, hflag _, hflag _, hflag _⟩

end MeetingReport
